import Mathlib

/-!
Verification of the streaming pipeline in `spark_processing.py`.

The source is a thin PySpark Structured Streaming program:
  * `initialize_spark_session` builds a Spark session (returns `None` on error);
  * `get_streaming_dataframe` builds a Kafka stream reader with hardcoded
    options, `startingOffsets` fixed to `"earliest"` (returns `None` on error);
  * `transform_streaming_data` does `CAST(value AS STRING)` followed by
    `from_json(value, schema)` and `select("data.*")` over a fixed
    nine-field schema;
  * `initiate_streaming_to_postgresql` builds a `writeStream` query with
    format `"jdbc"`, connection options and output mode `"append"`;
  * `main` wires the stages together, bailing out (with exit code 0) when a
    stage returned `None`.

We embed the program shallowly.  External effects (Spark session creation,
Kafka connection, stream start) are oracles recorded in an `Env` value; the
Python `try/except ... return None` wrappers become `Option`-valued
functions.  Spark's `from_json` (PERMISSIVE mode, the default used by the
source) is modelled over parsed JSON values: a payload that is not valid
JSON, or is JSON but not an object, yields a null struct; a present field
that is missing or not convertible to the declared type yields a null in
that column.  JSON and SQL numbers are modelled exactly (integers and
rationals), abstracting from IEEE float rounding.
-/

namespace SparkProcessing

/-- JSON values, as produced by parsing `CAST(value AS STRING)`.
Numbers keep the lexer distinction between integer tokens and
floating/decimal tokens, which Spark's Jackson parser relies on. -/
inductive JValue where
  | jnull : JValue
  | jbool (b : Bool) : JValue
  | jint (n : Int) : JValue
  | jfloat (q : ℚ) : JValue
  | jstr (s : String) : JValue
  | jarr (l : List JValue) : JValue
  | jobj (l : List (String × JValue)) : JValue

/-- The value column after `CAST(value AS STRING)`, classified by whether
the string parses as JSON.  `notJson s` stands for any string (including
bytes decoded with replacement characters) that is not valid JSON. -/
inductive JsonText where
  | notJson (s : String) : JsonText
  | json (v : JValue) : JsonText

/-- Spark SQL data types used by the source's schema. -/
inductive SType where
  | stringType : SType
  | integerType : SType
  | floatType : SType
  deriving DecidableEq, Repr

/-- A field of a Spark `StructType`, as in
`StructField("full_name", StringType(), False)`. -/
structure StructField where
  name : String
  dataType : SType
  nullable : Bool
  deriving DecidableEq, Repr

/-- The fixed nine-field schema declared in `transform_streaming_data`
(lines 68-78 of the source).  Every field is declared non-nullable. -/
def schema : List StructField :=
  [⟨"full_name", .stringType, false⟩,
   ⟨"gender", .stringType, false⟩,
   ⟨"location", .stringType, false⟩,
   ⟨"city", .stringType, false⟩,
   ⟨"country", .stringType, false⟩,
   ⟨"postcode", .integerType, false⟩,
   ⟨"latitude", .floatType, false⟩,
   ⟨"longitude", .floatType, false⟩,
   ⟨"email", .stringType, false⟩]

/-- SQL scalar values appearing in output rows. -/
inductive SValue where
  | vstr (s : String) : SValue
  | vint (n : Int) : SValue
  | vfloat (q : ℚ) : SValue
  deriving DecidableEq, Repr

/-- Conversion of one parsed JSON value to one declared Spark type, per
Spark's `JacksonParser` in PERMISSIVE mode: JSON `null` is a SQL null for
every type; `IntegerType` accepts only integer tokens that fit in 32 bits;
`FloatType` accepts numeric tokens (values kept exact, abstracting IEEE
rounding); `StringType` accepts string tokens (non-string tokens, which the
parser re-renders as text, do not occur in any property below).  `none`
means the column is null in the output row. -/
def convertJson : SType → JValue → Option SValue
  | _, .jnull => none
  | .stringType, .jstr s => some (.vstr s)
  | .stringType, _ => none
  | .integerType, .jint n =>
      if -(2 ^ 31) ≤ n ∧ n < 2 ^ 31 then some (.vint n) else none
  | .integerType, _ => none
  | .floatType, .jint n => some (.vfloat (n : ℚ))
  | .floatType, .jfloat q => some (.vfloat q)
  | .floatType, _ => none

/-- An output row: one optional SQL value per schema column
(`none` = SQL null). -/
abbrev Row := List (Option SValue)

/-- Spark's `from_json(value, schema)` in PERMISSIVE mode, over the parsed
payload: a payload that is not valid JSON, or whose JSON value is not an
object, yields a null struct (`none`); otherwise each schema column is
looked up by name in the object and converted, a missing or inconvertible
field becoming a null column. -/
def from_json (sch : List StructField) : JsonText → Option Row
  | .notJson _ => none
  | .json (.jobj kvs) =>
      some (sch.map fun f => (kvs.lookup f.name).bind (convertJson f.dataType))
  | .json _ => none

/-- `select("data.*")` on the aliased struct column: a null struct expands
to a row of nulls, one per schema column. -/
def selectDataStar (sch : List StructField) (o : Option Row) : Row :=
  o.getD (sch.map fun _ => none)

/-- A row of the Kafka source dataframe (columns `key`, `value`,
`partition`, `offset`, `timestamp`; the value already cast to string and
classified by JSON parsability). -/
structure KafkaMessage where
  partition : Int
  offset : Int
  key : Option String
  value : JsonText
  timestamp : Int

/-- The per-row computation of `transform_streaming_data`:
`CAST(value AS STRING)`, `from_json(col("value"), schema).alias("data")`,
`select("data.*")`. -/
def transformValue (v : JsonText) : Row :=
  selectDataStar schema (from_json schema v)

/-- `transform_streaming_data` (source lines 61-83), applied to a batch of
Kafka rows: each input row yields exactly one output row. -/
def transform_streaming_data (input : List KafkaMessage) : List Row :=
  input.map fun m => transformValue m.value

/-- The all-null output row produced for a payload that is not a JSON
object. -/
def allNullRow : Row := schema.map fun _ => none

/-- A fully typed record, per the spec's data model: nine required fields,
postcode an int32, latitude/longitude numeric (modelled exactly). -/
structure Record where
  full_name : String
  gender : String
  location : String
  city : String
  country : String
  postcode : Int
  latitude : ℚ
  longitude : ℚ
  email : String
  deriving DecidableEq, Repr

/-- The canonical JSON encoding of a record, fields in schema order. -/
def recordToJson (r : Record) : JValue :=
  .jobj [("full_name", .jstr r.full_name),
         ("gender", .jstr r.gender),
         ("location", .jstr r.location),
         ("city", .jstr r.city),
         ("country", .jstr r.country),
         ("postcode", .jint r.postcode),
         ("latitude", .jfloat r.latitude),
         ("longitude", .jfloat r.longitude),
         ("email", .jstr r.email)]

/-- The output row carrying exactly the fields of a record, in schema
order, with no null column. -/
def recordToRow (r : Record) : Row :=
  [some (.vstr r.full_name),
   some (.vstr r.gender),
   some (.vstr r.location),
   some (.vstr r.city),
   some (.vstr r.country),
   some (.vint r.postcode),
   some (.vfloat r.latitude),
   some (.vfloat r.longitude),
   some (.vstr r.email)]

/-- Reads a record back off an output row, succeeding exactly when every
column is non-null and of the declared type. -/
def recordOfRow : Row → Option Record
  | [some (.vstr fn), some (.vstr g), some (.vstr loc), some (.vstr ci),
     some (.vstr co), some (.vint pc), some (.vfloat la), some (.vfloat lo),
     some (.vstr em)] => some ⟨fn, g, loc, ci, co, pc, la, lo, em⟩
  | _ => none

/-- Oracle for the external effects the source wraps in `try/except` or
delegates to the engine: whether Spark session creation succeeds, whether
building the Kafka stream reader succeeds, and whether the started
streaming query raises (e.g. an unsupported-sink error at `start()` or a
query failure surfaced by `awaitTermination()`). -/
structure Env where
  sparkOk : Bool
  dfOk : Bool
  streamRaises : Bool
  deriving DecidableEq, Repr

/-- `initialize_spark_session` (source lines 13-32): builds the session,
catching any exception and returning `None`; the session is represented by
its application name. -/
def initialize_spark_session (env : Env) (app_name : String) : Option String :=
  if env.sparkOk then some app_name else none

/-- The Kafka stream reader configuration: format plus the `.option` pairs
set on `spark.readStream`. -/
structure StreamReaderConfig where
  format : String
  options : List (String × String)
  deriving DecidableEq, Repr

/-- `get_streaming_dataframe` (source lines 35-58): configures the Kafka
reader with the given brokers and topic, hardcoding
`startingOffsets = "earliest"`; any exception is caught and `None`
returned. -/
def get_streaming_dataframe (env : Env) (brokers topic : String) :
    Option StreamReaderConfig :=
  if env.dfOk then
    some { format := "kafka",
           options := [("kafka.bootstrap.servers", brokers),
                       ("subscribe", topic),
                       ("delimiter", ","),
                       ("startingOffsets", "earliest")] }
  else none

/-- The streaming write query configuration built by
`initiate_streaming_to_postgresql`: format, `.option` pairs, output mode.
No `checkpointLocation` option is ever set by the source. -/
structure StreamWriterConfig where
  format : String
  options : List (String × String)
  outputMode : String
  deriving DecidableEq, Repr

/-- `initiate_streaming_to_postgresql` (source lines 86-106): the write
query it starts, described by its configuration. -/
def initiate_streaming_to_postgresql (url table user password : String) :
    StreamWriterConfig :=
  { format := "jdbc",
    options := [("url", url), ("dbtable", table),
                ("user", user), ("password", password)],
    outputMode := "append" }

/-- A dead-letter entry as the spec describes one: original raw payload,
partition, offset, and rejection reason.  The source has no code producing
such entries. -/
structure DeadLetterEntry where
  rawPayload : String
  partition : Int
  offset : Int
  reason : String

/-- The observable outputs of one polled batch run through the pipeline
wired up in `main`: the transformed rows, all forwarded to the single JDBC
append sink, and the dead-letter output, which no code in the source ever
writes to. -/
structure PipelineOut where
  sinkRows : List Row
  deadLetterRows : List DeadLetterEntry

/-- The batch data flow of `main` (lines 118-123): `transform_streaming_data`
feeds `initiate_streaming_to_postgresql` directly; the JDBC append sink is
the only output, so every transformed row is forwarded there and nothing is
routed anywhere else. -/
def run_pipeline (input : List KafkaMessage) : PipelineOut :=
  { sinkRows := transform_streaming_data input,
    deadLetterRows := [] }

/-- How the process ends: `exits code`, or runs until externally stopped
(`awaitTermination` on a healthy query). -/
inductive ProcessOutcome where
  | exits (code : Nat) : ProcessOutcome
  | runsForever : ProcessOutcome
  deriving DecidableEq, Repr

/-- What a run of `main` did: how the process ended, whether
`transform_streaming_data` was applied, and whether the streaming write to
the external store was started. -/
structure MainTrace where
  outcome : ProcessOutcome
  ranTransform : Bool
  startedWrite : Bool
  deriving DecidableEq, Repr

/-- Hardcoded configuration constants of `main` (source lines 110-116). -/
def app_name : String := "SparkStructuredStreamingToPostgreSQL"

def brokers : String :=
  "kafka_broker_1:19092,kafka_broker_2:19093,kafka_broker_3:19094"

def topic : String := "names_topic"

def postgres_url : String := "jdbc:postgresql://localhost:5432/con-spark"

def postgres_table : String := "json_table"

def postgres_user : String := "postgres"

def postgres_password : String := "128311"

/-- `main` (source lines 109-123).  When a stage returns `None`, `main`
just falls through after the failed `if`, so the interpreter exits
normally with code 0; no transformation and no write happen.  When all
stages succeed, the streaming query either raises (an uncaught exception
exits the interpreter with code 1) or blocks in `awaitTermination`. -/
def main (env : Env) : MainTrace :=
  match initialize_spark_session env app_name with
  | none => { outcome := .exits 0, ranTransform := false, startedWrite := false }
  | some _ =>
    match get_streaming_dataframe env brokers topic with
    | none => { outcome := .exits 0, ranTransform := false, startedWrite := false }
    | some _ =>
      if env.streamRaises then
        { outcome := .exits 1, ranTransform := true, startedWrite := true }
      else
        { outcome := .runsForever, ranTransform := true, startedWrite := true }

/-! ### Basic lemmas about the transform stage -/

lemma transformValue_notJson (s : String) :
    transformValue (.notJson s) = allNullRow := rfl

lemma transformValue_jobj (kvs : List (String × JValue)) :
    transformValue (.json (.jobj kvs)) =
      schema.map fun f => (kvs.lookup f.name).bind (convertJson f.dataType) := rfl

lemma transformValue_length (v : JsonText) :
    (transformValue v).length = schema.length := by
  cases v with
  | notJson s => simp [transformValue, from_json, selectDataStar, allNullRow]
  | json j =>
    cases j <;> simp [transformValue, from_json, selectDataStar]

lemma transformValue_jobj_getElem? (kvs : List (String × JValue)) (i : Nat)
    (f : StructField) (hf : schema[i]? = some f)
    (hnone : (kvs.lookup f.name).bind (convertJson f.dataType) = none) :
    (transformValue (.json (.jobj kvs)))[i]? = some none := by
  rw [transformValue_jobj, List.getElem?_map, hf]
  simpa using hnone

lemma transformValue_record (r : Record)
    (h1 : -(2 ^ 31) ≤ r.postcode) (h2 : r.postcode < 2 ^ 31) :
    transformValue (.json (recordToJson r)) = recordToRow r := by
  simp [recordToJson, transformValue_jobj, schema, List.lookup, convertJson,
        recordToRow, h1, h2]
  constructor <;> [simpa using h1; simpa using h2]

/-! ### Claim theorems -/

/-- C2 counterexample: validation does not return typed failures.  A
payload that is not valid JSON (which the claim says fails with
`MalformedPayload`) and a JSON object missing every required field (which
the claim says fails with `SchemaViolation` naming a field) both succeed,
producing the very same all-null output row, so the code yields no typed
rejection and nothing that could name a violated field. -/
theorem c2_untyped_failure_counterexample :
    transformValue (.notJson "oops") = allNullRow ∧
    transformValue (.json (.jobj [])) = allNullRow := by
  exact ⟨rfl, by simp [transformValue_jobj, schema, List.lookup, allNullRow]⟩

/-- C2 amended: validation is total — every raw payload yields exactly one
full-width output row, never an unhandled fault — but failures are untyped:
a payload that is not valid JSON yields the all-null row, and a required
field that is missing or not coercible to its declared type yields a null
in that field's column, with no `MalformedPayload` or `SchemaViolation`
value produced. -/
theorem c2_validation_total_untyped :
    (∀ v : JsonText, (transformValue v).length = schema.length) ∧
    (∀ s : String, transformValue (.notJson s) = allNullRow) ∧
    (∀ (kvs : List (String × JValue)) (i : Nat) (f : StructField),
        schema[i]? = some f →
        (kvs.lookup f.name).bind (convertJson f.dataType) = none →
        (transformValue (.json (.jobj kvs)))[i]? = some none) :=
  ⟨transformValue_length, transformValue_notJson,
   fun kvs i f hf hnone => transformValue_jobj_getElem? kvs i f hf hnone⟩

/-- C2 witness: the amended statement evaluated at concrete inputs — a
non-JSON payload gives the all-null row, and with an empty JSON object the
`postcode` column (schema index 5) is null. -/
theorem c2_validation_total_untyped_witness :
    transformValue (.notJson "hello") = allNullRow ∧
    (transformValue (.json (.jobj [])))[5]? = some none :=
  ⟨c2_validation_total_untyped.2.1 "hello",
   c2_validation_total_untyped.2.2 [] 5 ⟨"postcode", .integerType, false⟩
     rfl rfl⟩

/-- C4 counterexample: the starting position is not configurable.  No
environment and no broker/topic arguments make `get_streaming_dataframe`
produce a reader whose `startingOffsets` option is `"latest"`: the option
is hardcoded. -/
theorem c4_not_configurable_counterexample :
    ¬ ∃ (env : Env) (b t : String) (cfg : StreamReaderConfig),
        get_streaming_dataframe env b t = some cfg ∧
        cfg.options.lookup "startingOffsets" = some "latest" := by
  rintro ⟨env, b, t, cfg, hcfg, hlat⟩
  by_cases h : env.dfOk <;> simp [get_streaming_dataframe, h] at hcfg
  subst hcfg
  simp [List.lookup] at hlat

/-- C4 amended: whenever `get_streaming_dataframe` succeeds, the Kafka
reader it configures has `startingOffsets` equal to `"earliest"`,
regardless of all arguments; the policy is hardcoded, not configurable. -/
theorem c4_starting_offsets_always_earliest (env : Env) (b t : String)
    (cfg : StreamReaderConfig)
    (h : get_streaming_dataframe env b t = some cfg) :
    cfg.options.lookup "startingOffsets" = some "earliest" := by
  by_cases hok : env.dfOk <;> simp [get_streaming_dataframe, hok] at h
  subst h
  simp [List.lookup]

/-- C4 witness: at the hardcoded brokers and topic of `main`, the
configured reader has `startingOffsets = "earliest"`. -/
theorem c4_starting_offsets_witness :
    ({ format := "kafka",
       options := [("kafka.bootstrap.servers", brokers),
                   ("subscribe", topic),
                   ("delimiter", ","),
                   ("startingOffsets", "earliest")] } :
        StreamReaderConfig).options.lookup "startingOffsets" =
      some "earliest" :=
  c4_starting_offsets_always_earliest ⟨true, true, false⟩ brokers topic _ rfl

/-- C5 counterexample: a fatal initialization failure does not exit
non-zero.  In an environment where the Spark session is created but the
streaming dataframe cannot be fetched (a configuration/connection failure
at startup), `main` performs nothing and the process exits with code 0. -/
theorem c5_exit_zero_on_failure_counterexample :
    (Env.dfOk ⟨true, false, false⟩ = false) ∧
    main ⟨true, false, false⟩ =
      { outcome := .exits 0, ranTransform := false, startedWrite := false } :=
  ⟨rfl, rfl⟩

/-- C5 amended: the process exits 0 both on normal paths and on
initialization failures (session or dataframe `None`), since those errors
are caught and only logged; a non-zero exit (the interpreter's code 1 for
an uncaught exception) occurs only when the started streaming stage
raises, and a healthy stream never terminates on its own. -/
theorem c5_exit_codes (env : Env) :
    ((env.sparkOk = false ∨ env.dfOk = false) →
      main env =
        { outcome := .exits 0, ranTransform := false, startedWrite := false }) ∧
    (env.sparkOk = true → env.dfOk = true → env.streamRaises = true →
      (main env).outcome = .exits 1) ∧
    (env.sparkOk = true → env.dfOk = true → env.streamRaises = false →
      (main env).outcome = .runsForever) := by
  obtain ⟨s, d, r⟩ := env
  cases s <;> cases d <;> cases r <;> exact ⟨by decide, by decide, by decide⟩

/-- C5 witness: the amended statement at concrete environments — a failed
dataframe fetch exits 0, and a raising stream under a healthy
initialization exits 1. -/
theorem c5_exit_codes_witness :
    main ⟨false, true, false⟩ =
      { outcome := .exits 0, ranTransform := false, startedWrite := false } ∧
    (main ⟨true, true, true⟩).outcome = .exits 1 :=
  ⟨(c5_exit_codes ⟨false, true, false⟩).1 (Or.inl rfl),
   (c5_exit_codes ⟨true, true, true⟩).2.1 rfl rfl rfl⟩

/-- C6: for every JSON object carrying the nine schema fields with the
declared types (strings for the string fields, an integer token in int32
range for postcode, numeric tokens for latitude/longitude), the transform
produces exactly the row of those values, with postcode held as an integer
and latitude/longitude as numbers. -/
theorem c6_valid_json_yields_record_row
    (kvs : List (String × JValue)) (r : Record)
    (hfn : kvs.lookup "full_name" = some (.jstr r.full_name))
    (hg : kvs.lookup "gender" = some (.jstr r.gender))
    (hloc : kvs.lookup "location" = some (.jstr r.location))
    (hci : kvs.lookup "city" = some (.jstr r.city))
    (hco : kvs.lookup "country" = some (.jstr r.country))
    (hpc : kvs.lookup "postcode" = some (.jint r.postcode))
    (hla : kvs.lookup "latitude" = some (.jfloat r.latitude))
    (hlo : kvs.lookup "longitude" = some (.jfloat r.longitude))
    (hem : kvs.lookup "email" = some (.jstr r.email))
    (h1 : -(2 ^ 31) ≤ r.postcode) (h2 : r.postcode < 2 ^ 31) :
    transformValue (.json (.jobj kvs)) = recordToRow r := by
  rw [transformValue_jobj]
  simp only [schema, List.map_cons, List.map_nil,
             hfn, hg, hloc, hci, hco, hpc, hla, hlo, hem]
  simp [convertJson, recordToRow, h1, h2]
  constructor <;> [simpa using h1; simpa using h2]

/-- C6 witness: the spec's own scenario input (Jane Doe) produces the row
of exactly those values. -/
theorem c6_valid_json_yields_record_row_witness :
    transformValue (.json (.jobj
      [("full_name", .jstr "Jane Doe"), ("gender", .jstr "F"),
       ("location", .jstr "X"), ("city", .jstr "Y"),
       ("country", .jstr "Z"), ("postcode", .jint 12345),
       ("latitude", .jfloat (21 / 2)), ("longitude", .jfloat (41 / 2)),
       ("email", .jstr "j@x.com")])) =
      recordToRow ⟨"Jane Doe", "F", "X", "Y", "Z", 12345, 21 / 2, 41 / 2,
                   "j@x.com"⟩ :=
  c6_valid_json_yields_record_row _ _ rfl rfl rfl rfl rfl rfl rfl rfl rfl
    (by norm_num) (by norm_num)

/-- C7: the transform stage is the identity on valid records — running an
already-valid record (encoded as its JSON payload) through the transform
returns exactly that record — and the transform is a pure function of its
input (it is a plain function in this model, with no state or effects). -/
theorem c7_transform_identity_on_records (r : Record)
    (h1 : -(2 ^ 31) ≤ r.postcode) (h2 : r.postcode < 2 ^ 31) :
    recordOfRow (transformValue (.json (recordToJson r))) = some r := by
  rw [transformValue_record r h1 h2]
  cases r
  rfl

/-- C7 witness: the identity round-trip on a concrete record. -/
theorem c7_transform_identity_witness :
    recordOfRow (transformValue (.json (recordToJson
      ⟨"Jane Doe", "F", "X", "Y", "Z", 12345, 21 / 2, 41 / 2, "j@x.com"⟩))) =
      some ⟨"Jane Doe", "F", "X", "Y", "Z", 12345, 21 / 2, 41 / 2, "j@x.com"⟩ :=
  c7_transform_identity_on_records _ (by norm_num) (by norm_num)

/-- C8 counterexample: a rejected record is not routed to any dead-letter
output.  For a batch holding one malformed message (partition 0, offset 7),
the pipeline's dead-letter output is empty — no entry with its payload,
partition, offset and reason exists — and the record instead reaches the
sink as an all-null row. -/
theorem c8_no_dead_letter_counterexample :
    (run_pipeline [⟨0, 7, none, .notJson "oops", 0⟩]).deadLetterRows = [] ∧
    (run_pipeline [⟨0, 7, none, .notJson "oops", 0⟩]).sinkRows =
      [allNullRow] :=
  ⟨rfl, rfl⟩

/-- C8 amended: per-record data-quality failures never block pipeline
progress — every polled batch yields exactly one sink row per input
message, malformed ones included — but there is no dead-letter routing at
all (the dead-letter output is always empty), and offset commitment is
internal to the engine rather than performed by this code. -/
theorem c8_rejects_never_block_progress (input : List KafkaMessage) :
    (run_pipeline input).sinkRows.length = input.length ∧
    (run_pipeline input).deadLetterRows = [] := by
  simp [run_pipeline, transform_streaming_data]

/-- C9: every `StructField` of the schema is declared non-nullable, yet the
transform forwards every input message to the sink as exactly one row —
nothing is dropped and nothing is routed to a separate rejection path — and
a message whose value is not valid JSON becomes the all-null row, while a
schema mismatch (required field missing or not coercible) makes that
field's column null. -/
theorem c9_null_rows_forwarded_to_sink :
    (∀ f ∈ schema, f.nullable = false) ∧
    (∀ input : List KafkaMessage,
        (run_pipeline input).sinkRows =
          input.map (fun m => transformValue m.value) ∧
        (run_pipeline input).deadLetterRows = []) ∧
    (∀ (pa off ts : Int) (k : Option String) (s : String),
        transformValue (KafkaMessage.mk pa off k (.notJson s) ts).value =
          allNullRow) ∧
    (∀ (kvs : List (String × JValue)) (i : Nat) (f : StructField),
        schema[i]? = some f →
        (kvs.lookup f.name).bind (convertJson f.dataType) = none →
        (transformValue (.json (.jobj kvs)))[i]? = some none) := by
  refine ⟨?_, fun input => ⟨rfl, rfl⟩,
          fun pa off ts k s => transformValue_notJson s,
          fun kvs i f hf hnone => transformValue_jobj_getElem? kvs i f hf hnone⟩
  intro f hf
  fin_cases hf <;> rfl

/-- C9 witness: concrete evaluations — the first schema field is declared
non-nullable, a malformed message yields the all-null row which is the one
sink row of its batch, and with postcode given as the string "abc" the
postcode column (schema index 5) is null. -/
theorem c9_null_rows_forwarded_witness :
    StructField.nullable ⟨"full_name", .stringType, false⟩ = false ∧
    (run_pipeline [⟨0, 7, none, .notJson "oops", 0⟩]).sinkRows =
      ([⟨0, 7, none, .notJson "oops", 0⟩] : List KafkaMessage).map
        (fun m => transformValue m.value) ∧
    transformValue (KafkaMessage.mk 0 7 none (.notJson "oops") 0).value =
      allNullRow ∧
    (transformValue (.json (.jobj [("postcode", .jstr "abc")])))[5]? =
      some none :=
  ⟨c9_null_rows_forwarded_to_sink.1 ⟨"full_name", .stringType, false⟩
     (by simp [schema]),
   (c9_null_rows_forwarded_to_sink.2.1 [⟨0, 7, none, .notJson "oops", 0⟩]).1,
   c9_null_rows_forwarded_to_sink.2.2.1 0 7 0 none "oops",
   c9_null_rows_forwarded_to_sink.2.2.2 [("postcode", .jstr "abc")] 5
     ⟨"postcode", .integerType, false⟩ rfl rfl⟩

/-- C10: `initialize_spark_session` and `get_streaming_dataframe` are
total — every call returns `None` or a value, never propagating an
exception — and whenever either of them returns `None`, `main` applies no
transformation, starts no write to the external store, and the process
terminates normally with exit code 0 after only logging the error. -/
theorem c10_init_failures_exit_zero (env : Env) :
    (∀ a : String, initialize_spark_session env a = none ∨
        ∃ s, initialize_spark_session env a = some s) ∧
    (∀ b t : String, get_streaming_dataframe env b t = none ∨
        ∃ cfg, get_streaming_dataframe env b t = some cfg) ∧
    ((initialize_spark_session env app_name = none ∨
      get_streaming_dataframe env brokers topic = none) →
      main env =
        { outcome := .exits 0, ranTransform := false, startedWrite := false }) := by
  obtain ⟨s, d, r⟩ := env
  refine ⟨fun a => ?_, fun b t => ?_, fun h => ?_⟩
  · cases s <;> simp [initialize_spark_session]
  · cases d <;> simp [get_streaming_dataframe]
  · cases s <;> cases d <;>
      simp_all [main, initialize_spark_session, get_streaming_dataframe,
                app_name, brokers, topic]

/-- C10 witness: in an environment where session creation fails, `main`
exits 0 having transformed nothing and written nothing. -/
theorem c10_init_failures_exit_zero_witness :
    main ⟨false, true, false⟩ =
      { outcome := .exits 0, ranTransform := false, startedWrite := false } :=
  (c10_init_failures_exit_zero ⟨false, true, false⟩).2.2 (Or.inl rfl)

end SparkProcessing
